import Mathlib

/-!
Shallow embedding of `src/chair_data_extraction.py` (module constants, the
`PlanFormatError` exception and the `ChairDataExtractor` class) together with
the fragments of the Python runtime and libraries the source exercises
(`re` character-class compilation and searching, `set` subscripting,
iteration over an `int`, pandas column lookup).  Every definition is a
line-by-line translation of the source; known slips in the source are kept
as they are and marked in comments, never repaired.
-/

namespace ChairData

/-- Errors a run of the extractor can raise.  `planFormatError` is the
repository's own exception class; the other constructors stand for the
Python runtime exceptions the source can trigger (`re.error`, `TypeError`,
`KeyError`). -/
inductive PyErr where
  | planFormatError (msg : String)
  | typeError (msg : String)
  | keyError (key : String)
  | reError (msg : String)
deriving DecidableEq, Repr

/-- `CHAIR_TYPES = ['W', 'P', 'S', 'C']` (line 6 of the source); each Python
entry is a one-character string, modelled as a `Char`. -/
def CHAIR_TYPES : List Char := ['W', 'P', 'S', 'C']

/-- `VERTICAL_WALL_SYMBOLS = '|\/+'` (line 7): the characters `|`, `\`, `/`, `+`. -/
def VERTICAL_WALL_SYMBOLS : List Char := ['|', '\\', '/', '+']

/-- `HORIZONTAL_WALL_SYMBOLS = '-'` (line 8). -/
def HORIZONTAL_WALL_SYMBOLS : List Char := ['-']

/-- `WALL_SYMBOLS = VERTICAL_WALL_SYMBOLS + HORIZONTAL_WALL_SYMBOLS` (line 9). -/
def WALL_SYMBOLS : List Char := VERTICAL_WALL_SYMBOLS ++ HORIZONTAL_WALL_SYMBOLS

/-! ### Model of `re` character-class compilation

`_check_validity` builds the pattern `'[' + WALL_SYMBOLS + ' a-z()PWSC' + ']+$'`,
that is `[|\/+- a-z()PWSC]+$`.  CPython's `sre_parse` reads the body of a
`[...]` class item by item: a backslash escapes the next character into a
literal, and a `-` standing between two items denotes a range whose bounds
must be ordered (`lo ≤ hi`), otherwise compilation raises
`re.error("bad character range ...")`.  The model below reproduces exactly
that behaviour for class bodies. -/

/-- One compiled item of a regex character class. -/
inductive ClassItem where
  | lit (c : Char)
  | range (lo hi : Char)
deriving DecidableEq, Repr

/-- Python's range check: `x-y` inside a class with `ord x > ord y` raises
`re.error ("bad character range x-y at position ...")`. -/
def mkRange (lo hi : Char) (rest : Except PyErr (List ClassItem)) :
    Except PyErr (List ClassItem) :=
  if lo.toNat ≤ hi.toNat then
    match rest with
    | Except.ok items => Except.ok (ClassItem.range lo hi :: items)
    | Except.error e => Except.error e
  else
    Except.error (PyErr.reError
      ("bad character range " ++ String.mk [lo, '-', hi]))

/-- Parse the body of a `[...]` character class the way CPython does:
an escaped character is a literal, `a-b` is a (checked) range, a `-` that is
first or last is a literal. -/
def parseClassBody : List Char → Except PyErr (List ClassItem)
  | [] => Except.ok []
  | '\\' :: c :: '-' :: '\\' :: d :: rest => mkRange c d (parseClassBody rest)
  | '\\' :: c :: '-' :: d :: rest => mkRange c d (parseClassBody rest)
  | '\\' :: c :: rest =>
    match parseClassBody rest with
    | Except.ok items => Except.ok (ClassItem.lit c :: items)
    | Except.error e => Except.error e
  | c :: '-' :: '\\' :: d :: rest => mkRange c d (parseClassBody rest)
  | c :: '-' :: d :: rest => mkRange c d (parseClassBody rest)
  | c :: rest =>
    match parseClassBody rest with
    | Except.ok items => Except.ok (ClassItem.lit c :: items)
    | Except.error e => Except.error e

/-- Membership of a character in a compiled class. -/
def inClass (items : List ClassItem) (c : Char) : Bool :=
  items.any fun
    | ClassItem.lit d => c = d
    | ClassItem.range lo hi => lo.toNat ≤ c.toNat && c.toNat ≤ hi.toNat

/-- `valid_characters = WALL_SYMBOLS + ' a-z()PWSC'` (line 69): the body of
the character class of `valid_pattern`. -/
def valid_characters : List Char := WALL_SYMBOLS ++ " a-z()PWSC".toList

/-- Truthiness of `re.match('[...]+$', line)` for a compiled class: the
whole line (or the whole line minus one trailing newline, since `$` also
matches just before a final `'\n'`) must be a non-empty run of class
characters. -/
def reMatchClassPlusDollar (items : List ClassItem) (line : String) : Bool :=
  let cs := line.toList
  (decide (cs ≠ []) && cs.all (inClass items)) ||
    (match cs.getLast? with
     | some '\n' => decide (cs.dropLast ≠ []) && cs.dropLast.all (inClass items)
     | _ => false)

/-- `ChairDataExtractor._check_validity` (lines 53-76).  The pattern body
`|\/+- a-z()PWSC` contains the reversed range `+` - ` ` (codes 43 > 32), so
compiling it — which `re.match` does on first use — raises
`re.error ("bad character range ...")` before any check runs. -/
def check_validity (line_length : Nat) (line : String) : Except PyErr Unit :=
  match parseClassBody valid_characters with
  | Except.error e => Except.error e
  | Except.ok items =>
    -- (dead for this pattern: compilation raises above)
    if !reMatchClassPlusDollar items line then
      Except.error (PyErr.planFormatError
        ("Plan contains invalid characters in the following line:\n" ++ line))
    else if line.length ≠ line_length then
      Except.error (PyErr.planFormatError "Plan contains lines of different lengths.")
    else
      Except.ok ()

/-! ### Model of `re.search` for the section pattern

`_detect_room_sections` uses `room_section_pattern = '[|+/\-][^[|+/\-]]+[|+/\-]'`.
CPython parses this as: one character of the class `{|, +, /, -}` (note that
the backslash only escapes the hyphen — the backslash character itself is not
in the class), then `[^[|+/\-]` — one character outside `{[, |, +, /, -}` —
then `]+`, i.e. one or more literal `]` characters (the first `]` closed the
class, the second is a plain literal), then again one class character.
Because `]` is not in the final class, backtracking over the greedy `]+`
never helps: the match succeeds exactly when the maximal `]` run is followed
by a class character. -/

/-- The compiled character class `[|+/\-]` of the section pattern. -/
def DETECT_WALL_CLASS : List Char := ['|', '+', '/', '-']

/-- Attempt to match the section pattern at position `i`; returns the
exclusive end index on success. -/
def sectionMatchEnd (cs : List Char) (i : Nat) : Option Nat :=
  match cs.drop i with
  | w :: c :: rest =>
    if (w ∈ DETECT_WALL_CLASS) && !(c = '[' || c ∈ DETECT_WALL_CLASS) then
      let run := (rest.takeWhile (fun x => x = ']')).length
      if run = 0 then Option.none
      else
        match rest.drop run with
        | w2 :: _ =>
          if w2 ∈ DETECT_WALL_CLASS then Option.some (i + 2 + run + 1) else Option.none
        | [] => Option.none
    else Option.none
  | _ => Option.none

/-- Leftmost search: try every start position in order. -/
def reSearchFrom (cs : List Char) : Nat → Nat → Option (Nat × Nat)
  | _, 0 => Option.none
  | i, r + 1 =>
    match sectionMatchEnd cs i with
    | Option.some e => Option.some (i, e)
    | Option.none => reSearchFrom cs (i + 1) r

/-- `re.search(room_section_pattern, line)`, returning the matched span. -/
def reSearchSection (line : String) : Option (Nat × Nat) :=
  reSearchFrom line.toList 0 (line.toList.length + 1)

/-- The `while room_section:` loop of `_detect_room_sections` (lines 110-113)
with an explicit fuel bound.  The body only appends `room_section.span()` to
the accumulator; `room_section` itself is never re-assigned, so the guard
keeps its initial value.  `none` means the fuel ran out with the loop still
running. -/
def detectLoop : Nat → Option (Nat × Nat) → List (Nat × Nat) → Option (List (Nat × Nat))
  | _, Option.none, acc => Option.some acc
  | 0, Option.some _, _ => Option.none
  | fuel + 1, Option.some sp, acc => detectLoop fuel (Option.some sp) (acc ++ [sp])

/-- `ChairDataExtractor._detect_room_sections` (lines 99-113), called with a
single argument as its one-parameter definition expects, bounded by fuel. -/
def _detect_room_sections (fuel : Nat) (line : String) : Option (List (Nat × Nat)) :=
  detectLoop fuel (reSearchSection line) []

/-- The call `self._detect_room_sections(line)` as it appears on line 90:
the `def` on line 99 omits `self`, so Python's bound-method call passes two
arguments to a one-parameter function and raises `TypeError`. -/
def detect_room_sections_call (_line : String) : Except PyErr (List (Nat × Nat)) :=
  Except.error (PyErr.typeError
    "ChairDataExtractor._detect_room_sections() takes 1 positional argument but 2 were given")

/-! ### Python values, the status buffers and the `chairs` registry -/

/-- A value stored in the `status` / `new_status` lists or used as a row
label of the `chairs` DataFrame: Python `None`, an `int` (`-1` marks a
wall), or the float `nan` that `chairs.index.max() + 1` produces on an
empty or all-`nan` index.  Equality on `nan` is modelled as reflexive,
matching Python's identity shortcut for one shared object; no theorem in
this file depends on a `nan`-`nan` comparison. -/
inductive PyVal where
  | pyNone
  | int (n : Int)
  | nan
deriving DecidableEq, Repr

/-- Printable form of a `PyVal`, used for `KeyError` payloads. -/
def pyValRender : PyVal → String
  | PyVal.pyNone => "None"
  | PyVal.int n => toString n
  | PyVal.nan => "nan"

/-- One row of the `chairs` DataFrame: the `'room'` column (the room name,
Python `None` until assigned) and the four chair-count columns in
`CHAIR_TYPES` order `W, P, S, C`. -/
structure RoomRec where
  room : Option String
  counts : List Int
deriving DecidableEq, Repr

/-- The `chairs` DataFrame: rows keyed by their index label, in insertion
order.  Created on line 32 as `pd.DataFrame(columns=['room'] + CHAIR_TYPES)`. -/
structure Chairs where
  rows : List (PyVal × RoomRec)
deriving DecidableEq, Repr

/-- The column labels of the `chairs` DataFrame: `['room'] + CHAIR_TYPES`. -/
def chairsColumns : List String := "room" :: CHAIR_TYPES.map (fun c => String.mk [c])

/-- `self.chairs.loc[k]` (row read): `KeyError` when the label is absent. -/
def chairsLocGet (chairs : Chairs) (k : PyVal) : Except PyErr RoomRec :=
  match chairs.rows.find? (fun p => p.1 == k) with
  | Option.some p => Except.ok p.2
  | Option.none => Except.error (PyErr.keyError (pyValRender k))

/-- `self.chairs.loc[k] = r` (row write): overwrite an existing label,
append a new one. -/
def chairsLocSet (chairs : Chairs) (k : PyVal) (r : RoomRec) : Chairs :=
  if chairs.rows.any (fun p => p.1 == k) then
    ⟨chairs.rows.map (fun p => if p.1 == k then (p.1, r) else p)⟩
  else
    ⟨chairs.rows ++ [(k, r)]⟩

/-- `self.chairs.index.max()`: pandas skips `nan` labels and yields `nan`
for an empty (or all-`nan`) index. -/
def indexMax (labels : List PyVal) : PyVal :=
  let ints := labels.filterMap fun
    | PyVal.int n => Option.some n
    | _ => Option.none
  match ints with
  | [] => PyVal.nan
  | x :: xs => PyVal.int (xs.foldl max x)

/-- `... + 1` on the result of `index.max()`: `nan + 1` is `nan`.  (A Python
`None` cannot reach this point: `indexMax` never returns it.) -/
def pyAddOne : PyVal → PyVal
  | PyVal.int n => PyVal.int (n + 1)
  | PyVal.nan => PyVal.nan
  | PyVal.pyNone => PyVal.pyNone

/-- `ChairDataExtractor._create_new_room` (lines 191-201).  Note that on the
empty DataFrame the new index is `nan + 1 = nan`, as pandas computes it. -/
def _create_new_room (chairs : Chairs) : PyVal × Chairs :=
  let room_idx := pyAddOne (indexMax (chairs.rows.map (fun p => p.1)))
  -- self.chairs.loc[room_idx, :] = [None, 0, 0, 0, 0]
  (room_idx, chairsLocSet chairs room_idx ⟨Option.none, [0, 0, 0, 0]⟩)

/-! ### Python `set` subscripting

`_join_rooms` receives `rooms: Set[int]` and evaluates `rooms[0]` (line 209)
and `rooms[1:]` (line 210); both raise
`TypeError: 'set' object is not subscriptable`. -/

/-- `s[i]` on a Python set. -/
def pySetGetItem (_s : Finset PyVal) (_i : Nat) : Except PyErr PyVal :=
  Except.error (PyErr.typeError "'set' object is not subscriptable")

/-- `s[i:]` on a Python set. -/
def pySetSliceFrom (_s : Finset PyVal) (_i : Nat) : Except PyErr (List PyVal) :=
  Except.error (PyErr.typeError "'set' object is not subscriptable")

/-- Python slice `s[a:b]` on a string (clamping, `0 ≤ a ≤ b` case). -/
def pyStrSlice (s : String) (a b : Nat) : String :=
  String.mk ((s.toList.drop a).take (b - a))

/-- Python slice `l[a:b]` on a list. -/
def pyListSlice (l : List PyVal) (a b : Nat) : List PyVal :=
  (l.drop a).take (b - a)

/-- Python slice assignment `l[a:b] = [v] * len(l[a:b])` (line 188 writes a
replacement of exactly the slice's length). -/
def pyListSetSlice (l : List PyVal) (a b : Nat) (v : PyVal) : List PyVal :=
  l.take a ++ List.replicate ((l.drop a).take (b - a)).length v ++ l.drop (max a b)

/-- The body of the `for room in rooms[1:]` loop of `_join_rooms`
(lines 212-223): add the absorbed room's counts into the joint room and
move its name over, raising `PlanFormatError` when the joint room already
has one. -/
def joinRoomsBody (chairs : Chairs) (joint_room room : PyVal) : Except PyErr Chairs := do
  -- self.chairs.loc[joint_room, CHAIR_TYPES] += self.chairs.loc[room, CHAIR_TYPES]
  let jr ← chairsLocGet chairs joint_room
  let rr ← chairsLocGet chairs room
  let chairs := chairsLocSet chairs joint_room
    { jr with counts := List.zipWith (fun a b => a + b) jr.counts rr.counts }
  -- room_name = self.chairs.loc[room, 'room']
  match rr.room with
  | Option.none => return chairs
  | Option.some name =>
    let jr2 ← chairsLocGet chairs joint_room
    match jr2.room with
    | Option.none => return chairsLocSet chairs joint_room { jr2 with room := Option.some name }
    | Option.some jname =>
      Except.error (PyErr.planFormatError
        ("Multiple names were given for the same room: " ++ name ++ " and " ++ jname ++ "!"))

/-- `ChairDataExtractor._join_rooms` (lines 203-224).  Its first statement,
`joint_room = rooms[0]`, subscripts a Python set and raises `TypeError`
before any joining can happen. -/
def _join_rooms (chairs : Chairs) (rooms : Finset PyVal) : Except PyErr (PyVal × Chairs) := do
  let joint_room ← pySetGetItem rooms 0
  let rest ← pySetSliceFrom rooms 1
  let chairs ← rest.foldlM (fun ch room => joinRoomsBody ch joint_room room) chairs
  return (joint_room, chairs)

/-- `ChairDataExtractor._map_section_to_room` (lines 116-189). -/
def _map_section_to_room (chairs : Chairs) (status new_status : List PyVal)
    (sec : Nat × Nat) (line : String) : Except PyErr (PyVal × List PyVal × Chairs) :=
  -- section_idx = slice(section[0] + 1, section[1]): note that this keeps the
  -- closing wall character (index section[1] - 1) inside the segment
  let a := sec.1 + 1
  let b := sec.2
  let line_segment := pyStrSlice line a b
  let segment_status := pyListSlice status a b
  -- distinct_mapped_rooms = set([k for k in segment_status if k != -1])
  let distinct_mapped_rooms : Finset PyVal :=
    (segment_status.filter (fun k => k ≠ PyVal.int (-1))).toFinset
  if distinct_mapped_rooms = {PyVal.pyNone} then
    -- `if line == ' ' * len(line_segment)` (line 149): the source compares the
    -- WHOLE line, not the segment, against the blank string
    if line = String.mk (List.replicate line_segment.length ' ') then
      Except.ok (PyVal.pyNone, pyListSetSlice new_status a b PyVal.pyNone, chairs)
    else
      Except.error (PyErr.planFormatError
        "The plan contains rooms that are not fully enclosed by walls.")
  else if PyVal.pyNone ∈ distinct_mapped_rooms then
    Except.error (PyErr.planFormatError
      "The plan contains rooms that are not fully enclosed by walls.")
  else if distinct_mapped_rooms.card = 0 then
    let (room, chairs2) := _create_new_room chairs
    Except.ok (room, pyListSetSlice new_status a b room, chairs2)
  else if distinct_mapped_rooms.card = 1 then
    -- room = distinct_mapped_rooms[0] (line 177): subscripting a set, TypeError
    match pySetGetItem distinct_mapped_rooms 0 with
    | Except.error e => Except.error e
    | Except.ok room => Except.ok (room, pyListSetSlice new_status a b room, chairs)
  else
    match _join_rooms chairs distinct_mapped_rooms with
    | Except.error e => Except.error e
    | Except.ok (room, chairs2) => Except.ok (room, pyListSetSlice new_status a b room, chairs2)

/-! ### Content extraction -/

/-- A Python `re.Match` object: `.string` is the WHOLE input passed to the
search, `.group(0)` the matched text. -/
structure ReMatch where
  string : String
  matched : String
deriving DecidableEq, Repr

/-- Characters of the class `[a-z ]`. -/
def isLowerOrSpace (c : Char) : Bool :=
  ('a'.toNat ≤ c.toNat && c.toNat ≤ 'z'.toNat) || c = ' '

/-- Leftmost maximal run of `[a-z ]` characters. -/
def findRunFrom : List Char → Option (List Char)
  | [] => Option.none
  | c :: rest =>
    if isLowerOrSpace c then Option.some (c :: rest.takeWhile isLowerOrSpace)
    else findRunFrom rest

/-- `re.search('([a-z ]+)', s)` (line 239). -/
def reSearchNameRun (s : String) : Option ReMatch :=
  match findRunFrom s.toList with
  | Option.some run => Option.some ⟨s, String.mk run⟩
  | Option.none => Option.none

/-- `'{}'.format(match_object)` as used in the error message of line 246
(abridged `str()` of a match object). -/
def matchObjectFormat (m : ReMatch) : String :=
  "<re.Match object; match=" ++ m.matched ++ ">"

/-- `[segment_string.count(chair) for chair in CHAIR_TYPES]` (line 250). -/
def chairCountList (s : String) : List Int :=
  CHAIR_TYPES.map (fun chair => ((s.toList.count chair : Nat) : Int))

/-- `ChairDataExtractor._update_room_name_and_chairs` (lines 226-250). -/
def _update_room_name_and_chairs (chairs : Chairs) (room_section : Nat × Nat)
    (line : String) (room : PyVal) : Except PyErr Chairs := do
  -- segment_idx = slice(room_section[0] + 1, room_section[1]): keeps the
  -- closing wall character inside the segment despite the comment on line 234
  let a := room_section.1 + 1
  let b := room_section.2
  let segment_string := pyStrSlice line a b
  let chairs ←
    match reSearchNameRun segment_string with
    | Option.none => pure chairs
    | Option.some m => do
      let rec0 ← chairsLocGet chairs room
      match rec0.room with
      | Option.none =>
        -- room_name = room_name.string (line 242): `.string` is the whole
        -- segment, not the matched group; the following
        -- segment_string.replace(room_name, '') (line 244) discards its result
        let room_name := m.string
        pure (chairsLocSet chairs room { rec0 with room := Option.some room_name })
      | Option.some existing =>
        -- raised whenever a name run is found and the room already has a
        -- name, with no comparison of the two texts (lines 245-247)
        Except.error (PyErr.planFormatError
          ("Multiple Names for the same room: " ++ matchObjectFormat m ++ " and "
            ++ existing ++ "!"))
  let rec1 ← chairsLocGet chairs room
  return chairsLocSet chairs room
    { rec1 with
      counts := List.zipWith (fun x y => x + y) rec1.counts (chairCountList segment_string) }

/-! ### Row processing, the main loop and final validation -/

/-- `for char in len(self.status)` (line 89): iterating an `int` raises
`TypeError`. -/
def pyIterInt (_n : Nat) : Except PyErr (List Char) :=
  Except.error (PyErr.typeError "'int' object is not iterable")

/-- `ChairDataExtractor._process_line` (lines 78-97). -/
def _process_line (chairs : Chairs) (status : List PyVal) (line : String) :
    Except PyErr (Chairs × List PyVal) := do
  -- new_status = [-1 if char in WALL_SYMBOLS else None for char in len(self.status)]
  let chars ← pyIterInt status.length
  let new_status := chars.map
    (fun char => if char ∈ WALL_SYMBOLS then PyVal.int (-1) else PyVal.pyNone)
  -- room_sections = self._detect_room_sections(line)
  let room_sections ← detect_room_sections_call line
  let st ← room_sections.foldlM
    (fun (st : Chairs × List PyVal) sec => do
      match _map_section_to_room st.1 status st.2 sec line with
      | Except.error e => Except.error e
      | Except.ok (room, ns, ch) =>
        -- if room is not None: self._update_room_name_and_chairs(...)
        if room ≠ PyVal.pyNone then do
          let ch2 ← _update_room_name_and_chairs ch sec line room
          pure (ch2, ns)
        else
          pure (ch, ns))
    (chairs, new_status)
  -- self.status = self.new_status
  return st

/-- `self.chairs[key]` where only the `'room'` column holds strings: a key
outside `chairsColumns` raises `KeyError(key)`. -/
def dataFrameGetColumn (chairs : Chairs) (key : String) : Except PyErr (List (Option String)) :=
  if key ∈ chairsColumns then
    Except.ok (if key = "room" then chairs.rows.map (fun p => p.2.room) else [])
  else
    Except.error (PyErr.keyError key)

/-- `self.chairs.duplicated(subset=key)`: flags rows whose value under the
key column appeared in an earlier row; a missing column raises `KeyError`. -/
def dataFrameDuplicated (chairs : Chairs) (key : String) : Except PyErr (List Bool) :=
  if key ∈ chairsColumns then
    Except.ok ((chairs.rows.map (fun p => p.2.room)).foldl
      (fun (st : List (Option String) × List Bool) v =>
        (st.1 ++ [v], st.2 ++ [decide (v ∈ st.1)])) ([], [])).2
  else
    Except.error (PyErr.keyError key)

/-- `ChairDataExtractor._perform_final_validation` (lines 252-281).  Its
first statement evaluates `self.chairs['name']`, but the frame's columns are
`['room', 'W', 'P', 'S', 'C']` (line 32), so a `KeyError('name')` is raised
before any of the documented checks; everything after the first bind is dead
code in every run. -/
def _perform_final_validation (chairs : Chairs) (status : List PyVal) :
    Except PyErr (Chairs × List PyVal) := do
  -- no_rooms_idx = self.chairs['name'] == None
  let name_col ← dataFrameGetColumn chairs "name"
  let no_rooms_idx := name_col.map (fun v => v.isNone)
  -- if not (self.chairs.loc[no_rooms_idx, CHAIR_TYPES] == 0).all().all(): raise
  let flagged := (chairs.rows.zip no_rooms_idx).filterMap
    (fun q => if q.2 then Option.some q.1 else Option.none)
  if !(flagged.all (fun p => p.2.counts.all (fun n => n = 0))) then
    Except.error (PyErr.planFormatError "The plan contains chairs outside any room.")
  else do
    -- self.chairs = self.chairs.drop(columns=no_rooms_idx): hands the mask's
    -- boolean VALUES to pandas as column labels; True/False are not columns,
    -- so any non-empty mask raises KeyError
    let chairs ←
      if no_rooms_idx = [] then pure chairs
      else Except.error (PyErr.keyError "mask values are not column labels")
    -- self.status = [None if k in no_rooms_idx else k for k in self.status]:
    -- `in` on a pandas Series tests membership in its INDEX (the room labels)
    let labels := chairs.rows.map (fun p => p.1)
    let status := status.map (fun k => if k ∈ labels then PyVal.pyNone else k)
    -- if not all([k in [None, -1] for k in self.status]): raise
    if !(status.all (fun k => k == PyVal.pyNone || k == PyVal.int (-1))) then
      Except.error (PyErr.planFormatError
        "The plan contains rooms that are not fully enclosed by walls.")
    else do
      -- if any(self.chairs.duplicated(subset='name')): raise
      let dups ← dataFrameDuplicated chairs "name"
      if dups.any (fun x => x) then
        Except.error (PyErr.planFormatError
          "The plan contains different rooms with the same name.")
      else
        return (chairs, status)

/-- The `while line:` loop of `extract_data_from_file` (lines 39-43), with
fuel.  The body is `self._check_validity(line); self._process_line(line)` —
it contains no further `f.readline()`, so `line` is passed to the next
iteration unchanged.  `none` means the fuel ran out with the loop still
running. -/
def extractLoop : Nat → String → Nat → Chairs → List PyVal →
    Option (Except PyErr (Chairs × List PyVal))
  | 0, _, _, _, _ => Option.none
  | fuel + 1, line, line_length, chairs, status =>
    if line = "" then
      Option.some (_perform_final_validation chairs status)
    else
      match check_validity line_length line with
      | Except.error e => Option.some (Except.error e)
      | Except.ok _ =>
        match _process_line chairs status line with
        | Except.error e => Option.some (Except.error e)
        | Except.ok (chairs2, status2) => extractLoop fuel line line_length chairs2 status2

/-- `ChairDataExtractor.extract_data_from_file` (lines 26-43) over the file's
rows (each as `f.readline()` yields it, trailing newline included; `""` for
end of file).  Only the single `readline()` before the loop ever runs. -/
def extract_data_from_file (rows : List String) (fuel : Nat) :
    Option (Except PyErr (Chairs × List PyVal)) :=
  let line := rows.headD ""
  let line_length := line.length
  -- self.status = [None for k in range(self.line_length)]
  let status := List.replicate line_length PyVal.pyNone
  let chairs : Chairs := ⟨[]⟩
  extractLoop fuel line line_length chairs status

/-! ### Helper lemmas -/

/-- The guard of the `while room_section:` loop never changes: with any
positive fuel the loop takes a step that leaves the searched match intact,
so no amount of fuel reaches a result. -/
theorem detectLoop_diverges (fuel : Nat) :
    ∀ (sp : Nat × Nat) (acc : List (Nat × Nat)),
      detectLoop fuel (Option.some sp) acc = Option.none := by
  induction fuel with
  | zero => intro sp acc; rfl
  | succ n ih => intro sp acc; exact ih sp (acc ++ [sp])

/-! ### Claim theorems -/

/-- Claim C1: the spec says that for the three rows `"+---+"`, `"|k W|"`,
`"+---+"` the core returns exactly `{"k" : (W:1, P:0, S:0, C:0)}` with no
error.  The code instead raises an unclassified `re.error` while validating
the very first row (the validity pattern `[|\/+- a-z()PWSC]+$` contains the
reversed character range `+`-` `), for every fuel bound on the main loop. -/
theorem c1_concrete_scenario_crashes_in_validator :
    ∀ fuel : Nat,
      extract_data_from_file ["+---+\n", "|k W|\n", "+---+\n"] (fuel + 1) =
        Option.some (Except.error (PyErr.reError "bad character range +- ")) :=
  fun _ => rfl

/-- Claim C2: the spec says the per-row section scan advances monotonically
past each consumed wall character and cannot loop forever.  In the code the
`while room_section:` loop of `_detect_room_sections` never re-assigns
`room_section`, so whenever the initial `re.search` finds a match — e.g. on
the line `"|a]|"`, where the (mis-written) section pattern matches the span
`(0, 4)` — the loop runs forever: no fuel bound suffices. -/
theorem c2_section_scan_never_terminates :
    (∀ (fuel : Nat) (sp : Nat × Nat) (acc : List (Nat × Nat)),
        detectLoop fuel (Option.some sp) acc = Option.none) ∧
      (∀ fuel : Nat, _detect_room_sections fuel "|a]|" = Option.none) := by
  refine ⟨fun fuel => detectLoop_diverges fuel, fun fuel => ?_⟩
  have h : reSearchSection "|a]|" = Option.some (0, 4) := rfl
  show detectLoop fuel (reSearchSection "|a]|") [] = Option.none
  rw [h]
  exact detectLoop_diverges fuel (0, 4) []

/-- Claim C3: the spec says rows with an illegal character fail with
`InvalidCharacter`, rows of the wrong width fail with `RowWidthMismatch`,
and rows satisfying both conditions are accepted.  The code's validator
instead raises `re.error` on every row whatsoever — the character class of
`valid_pattern` contains the reversed range `+`-` ` (codes 43 > 32), so the
pattern never compiles — and hence never accepts any row and never produces
either classified failure. -/
theorem c3_validator_always_raises_re_error :
    ∀ (line_length : Nat) (line : String),
      check_validity line_length line =
        Except.error (PyErr.reError "bad character range +- ") :=
  fun _ _ => rfl

/-- Claim C4: the spec says a merge picks the smallest id as canonical,
redirects the others, sums the counts and adopts a single existing name.
The code's `_join_rooms` evaluates `rooms[0]` on a Python `set` as its first
statement and raises `TypeError` on every call — no canonical id is chosen
and no counts are ever summed. -/
theorem c4_join_rooms_raises_type_error :
    ∀ (chairs : Chairs) (rooms : Finset PyVal),
      _join_rooms chairs rooms =
        Except.error (PyErr.typeError "'set' object is not subscriptable") :=
  fun _ _ => rfl

/-- Claim C5: the spec says `ConflictingRoomNames` is raised exactly when two
DIFFERENT name texts are attributed to one room, and that attributing the
same text twice is not an error.  In the code, a room already named `"k"`
whose next section again carries exactly the text `"k"` (line `"|k|"`,
section `(0, 3)`) raises the conflict error anyway: the name branch fires on
any found `[a-z ]` run without comparing the two texts. -/
theorem c5_same_name_reattribution_raises :
    (reSearchNameRun (pyStrSlice "|k|" 1 3)).map ReMatch.matched = Option.some "k" ∧
      _update_room_name_and_chairs ⟨[(PyVal.int 0, ⟨Option.some "k", [0, 0, 0, 0]⟩)]⟩
          (0, 3) "|k|" (PyVal.int 0) =
        Except.error (PyErr.planFormatError
          "Multiple Names for the same room: <re.Match object; match=k> and k!") :=
  ⟨rfl, rfl⟩

/-- Claim C6: the spec says a section whose previous-row interior states are
all `Unassigned` and whose current interior is entirely blank is left
`Unassigned` with no error.  On the line `"+  +"` with all-`None` previous
status the interior (columns 1-2) is blank, yet the code raises the
unenclosed-room error: line 149 compares the WHOLE line (and a segment that
wrongly still contains the closing wall) against a blank string, which can
never succeed for a line containing the section's walls. -/
theorem c6_blank_interior_section_raises :
    pyStrSlice "+  +" 1 3 = "  " ∧
      _map_section_to_room ⟨[]⟩
          [PyVal.pyNone, PyVal.pyNone, PyVal.pyNone, PyVal.pyNone]
          [PyVal.int (-1), PyVal.pyNone, PyVal.pyNone, PyVal.int (-1)]
          (0, 4) "+  +" =
        Except.error (PyErr.planFormatError
          "The plan contains rooms that are not fully enclosed by walls.") :=
  ⟨rfl, rfl⟩

/-- Claim C7: the spec says final validation fails with `ChairsOutsideRoom`
for an unnamed room holding a chair, and silently drops unnamed empty rooms.
The code's final validation instead raises `KeyError('name')` on its first
statement — the frame's columns are `['room', 'W', 'P', 'S', 'C']` — shown
here at a registry holding exactly one anonymous room with one `W` chair. -/
theorem c7_final_validation_key_error_not_chairs_outside :
    _perform_final_validation ⟨[(PyVal.nan, ⟨Option.none, [1, 0, 0, 0]⟩)]⟩
        [PyVal.int (-1), PyVal.pyNone, PyVal.int (-1)] =
      Except.error (PyErr.keyError "name") :=
  rfl

/-- Claim C8: the spec says a lingering `OpenRoom` entry in the final status
buffer fails with `UnenclosedRoom`, and the core succeeds only when the
final buffer holds only `Wall`/`Unassigned`.  The code never reaches that
check: for every registry and every final status buffer — open rooms or
not — `_perform_final_validation` stops at `KeyError('name')`, so the
unenclosed-room failure is never produced at final validation and the core
never succeeds. -/
theorem c8_final_status_check_unreachable :
    ∀ (chairs : Chairs) (status : List PyVal),
      _perform_final_validation chairs status = Except.error (PyErr.keyError "name") :=
  fun _ _ => rfl

/-- Claim C9: the spec says two retained rooms sharing one name fail with
`DuplicateRoomName`.  With two rooms both named `"kitchen"` the code's final
validation still raises `KeyError('name')` on its first statement; the
duplicate check (itself again keyed on the absent `'name'` column) is never
reached. -/
theorem c9_duplicate_name_check_unreachable :
    _perform_final_validation
        ⟨[(PyVal.int 0, ⟨Option.some "kitchen", [0, 0, 0, 0]⟩),
          (PyVal.int 1, ⟨Option.some "kitchen", [0, 0, 0, 0]⟩)]⟩
        [PyVal.int (-1), PyVal.pyNone, PyVal.int (-1)] =
      Except.error (PyErr.keyError "name") :=
  rfl

/-- Claim C10: the recognized furniture codes are exactly `W`, `P`, `S`, `C`,
in that fixed order: `CHAIR_TYPES` lists them in that order, the registry's
columns are `['room', 'W', 'P', 'S', 'C']`, and the per-section count list
of `_update_room_name_and_chairs` tallies every segment in exactly that
order, for every input text. -/
theorem c10_chair_types_order :
    CHAIR_TYPES = ['W', 'P', 'S', 'C'] ∧
      chairsColumns = ["room", "W", "P", "S", "C"] ∧
      ∀ s : String,
        chairCountList s =
          [(s.toList.count 'W' : Int), (s.toList.count 'P' : Int),
            (s.toList.count 'S' : Int), (s.toList.count 'C' : Int)] :=
  ⟨rfl, rfl, fun _ => rfl⟩

end ChairData
